import Mathlib

/-!
Verification of the analysis-request/response pipeline of the
car_damage_analyzer repository (src/app.py: remote OpenAI-compatible
backend; src/app_local.py: local generate-style backend).

The Python sources are shallowly embedded: the external collaborators
(the HTTP clients and the json.loads parser of the Python standard
library) are oracle parameters, and the repository's own control flow
(the per-aspect loop of analyze_car_damage, the line loop of
analyze_with_llava, the display blocks, the report loop of main) is
translated function by function.  Python exceptions are modelled with
Option (none = an exception reached the enclosing handler), and the
relevant pieces of Python's dynamic semantics (truthiness, the `in`
operator, str.join, dict.get) are modelled explicitly on decoded JSON
values.
-/

set_option maxRecDepth 10000

namespace CarDamage

/-- A decoded JSON value, as json.loads returns one (Python: None, bool,
int/float, str, list, dict with string keys). -/
inductive JVal where
  | jnull
  | jbool (b : Bool)
  | jnum (n : Int)
  | jstr (s : String)
  | jarr (elems : List JVal)
  | jobj (fields : List (String × JVal))

/-- The three fixed analysis aspects: the keys of the CAR_DAMAGE_PROMPTS
dict in both source files. -/
inductive Aspect where
  | damage_assessment
  | part_analysis
  | repair_recommendations
deriving DecidableEq

/-- The Python dict key naming an aspect. -/
def Aspect.key : Aspect → String
  | .damage_assessment => "damage_assessment"
  | .part_analysis => "part_analysis"
  | .repair_recommendations => "repair_recommendations"

/-- Iteration order of CAR_DAMAGE_PROMPTS.items(): Python dicts iterate in
insertion order. -/
def aspects : List Aspect :=
  [.damage_assessment, .part_analysis, .repair_recommendations]

/-- Lookup in a decoded JSON object (Python dict indexing / dict.get with no
default; json.loads produces dicts with unique keys). -/
def jlookup (fields : List (String × JVal)) (k : String) : Option JVal :=
  (fields.find? (fun p => p.1 == k)).map (·.2)

/-- Python dict.get with a default. -/
def jgetD (fields : List (String × JVal)) (k : String) (d : JVal) : JVal :=
  (jlookup fields k).getD d

/-- Python truthiness of a decoded JSON value. -/
def pyTruthy : JVal → Bool
  | .jnull => false
  | .jbool b => b
  | .jnum n => n != 0
  | .jstr s => !(s == "")
  | .jarr elems => !elems.isEmpty
  | .jobj fields => !fields.isEmpty

/-- Python str.lower, modelled characterwise. -/
def pyLower (s : String) : String := ⟨s.data.map Char.toLower⟩

/-- Python str.strip with no argument: drop leading and trailing
whitespace. -/
def pyStrip (s : String) : String :=
  ⟨((s.data.dropWhile Char.isWhitespace).reverse.dropWhile Char.isWhitespace).reverse⟩

/-- Python s.split(sep) for a one-character separator, over the character
list: every occurrence of the separator cuts, and the empty string yields
one empty piece. -/
def splitOnChar (c : Char) : List Char → List (List Char)
  | [] => [[]]
  | x :: xs =>
    match splitOnChar c xs with
    | [] => [[]]
    | y :: ys => if x == c then [] :: y :: ys else (x :: y) :: ys

/-- Python text.split with the one-character separator "\n". -/
def pySplitLines (s : String) : List String :=
  (splitOnChar (Char.ofNat 10) s.data).map (fun cs => ⟨cs⟩)

/-- Python `sub in s` on strings: substring containment. -/
def strContains (s sub : String) : Bool :=
  (List.range (s.toList.length + 1)).any
    (fun i => sub.toList.isPrefixOf (s.toList.drop i))

/-- Python `v == s` where s is a str: equal only to an equal str. -/
def jeqStr (v : JVal) (s : String) : Bool :=
  match v with
  | .jstr t => t == s
  | _ => false

/-- All elements of a decoded JSON list, when each one is a string. -/
def asStrings : List JVal → Option (List String)
  | [] => some []
  | .jstr s :: rest => (asStrings rest).map (s :: ·)
  | _ :: _ => none

/-- Python sep.join(v) on a decoded JSON value: joins a list of strings (a
non-str element is a TypeError, modelled as none), iterates a str by
characters, iterates a dict by its keys; any other value is a TypeError. -/
def pyJoin (sep : String) : JVal → Option String
  | .jarr elems => (asStrings elems).map (String.intercalate sep)
  | .jstr s => some (String.intercalate sep (s.toList.map (fun c => String.mk [c])))
  | .jobj fields => some (String.intercalate sep (fields.map (·.1)))
  | _ => none

/-- Results dict indexing: results[aspect.key]. The analysis results built
below always carry all three keys, so the default is never reached. -/
def getAspect (results : List (Aspect × String)) (a : Aspect) : String :=
  ((results.find? (fun p => decide (p.1 = a))).map (·.2)).getD ""

/-- Streamlit emphasis levels: st.error, st.warning, st.success, st.info. -/
inductive Style where
  | alert
  | warning
  | success
  | info
deriving DecidableEq

namespace App

/-- CAR_DAMAGE_PROMPTS of src/app.py (lines 17-37). -/
def CAR_DAMAGE_PROMPTS : Aspect → String
  | .damage_assessment => "Analyze the car damage in the image and provide:
1. Location of damage (e.g., front bumper, rear door, etc.)
2. Type of damage (e.g., dent, scratch, broken part)
3. Severity (Minor/Moderate/Severe)
4. Estimated repair complexity (Easy/Medium/Complex)
Format as JSON with these fields."
  | .part_analysis => "List the following for the damaged car:
1. Damaged parts that need repair
2. Parts likely needing replacement
3. Additional areas to check for hidden damage
Format as JSON with these fields."
  | .repair_recommendations => "Provide repair recommendations:
1. Suggested repair methods
2. Potential repair time
3. Whether specialized tools/skills needed
4. Safety considerations
Format as JSON with these fields."

/-- analyze_car_damage of src/app.py (lines 49-85).  The OpenAI
chat-completions call (encoding, transport, choices[0].message.content
extraction) is the oracle `call image prompt`; none models any raised
exception, which the except-branch turns into the sentinel. -/
def analyze_car_damage (call : String → String → Option String)
    (image : String) : List (Aspect × String) :=
  aspects.map (fun a =>
    (a, match call image (CAR_DAMAGE_PROMPTS a) with
        | some content => content
        | none => "Analysis failed"))

/-- Severity emphasis of the Damage Assessment expander (src/app.py lines
101-108): st.error on "Severe", st.warning on "Moderate", else st.success. -/
def severityStyle (severity : JVal) : Style :=
  if jeqStr severity "Severe" then .alert
  else if jeqStr severity "Moderate" then .warning
  else .success

/-- Complexity emphasis (src/app.py lines 109-116). -/
def complexityStyle (complexity : JVal) : Style :=
  if jeqStr complexity "Complex" then .alert
  else if jeqStr complexity "Medium" then .warning
  else .success

/-- Safety-notes emphasis (src/app.py lines 156-161): st.error when the
lowercased text contains "critical", else st.info. -/
def safetyStyle (notes : String) : Style :=
  if strContains (pyLower notes) "critical" then .alert else .info

/-- What the Damage Assessment expander renders on a structured parse. -/
structure DamageView where
  location : JVal
  type : JVal
  severity : JVal
  severityStyle : Style
  repair_complexity : JVal
  complexityStyle : Style

/-- What the Parts Analysis expander renders on a structured parse. -/
structure PartsView where
  repair_parts : JVal
  replacement_parts : JVal
  inspection_areas : JVal

/-- What the Repair Recommendations expander renders on a structured parse:
specializedWarning true is st.warning of the fixed requires-specialized
message, false is st.success of the standard-repair message. -/
structure RepairView where
  repair_methods : JVal
  repair_time : JVal
  specializedWarning : Bool
  safety_considerations : String
  safetyStyle : Style

/-- Rendering of one expander: structured fields, or the raw text written by
the bare except branch. -/
inductive AspectView where
  | raw (text : String)
  | damage (v : DamageView)
  | parts (v : PartsView)
  | repair (v : RepairView)

/-- The Damage Assessment expander of display_damage_analysis (src/app.py
lines 91-118).  loads is json.loads (none = raised).  A parse failure, or a
parse to a non-dict (whose .get raises AttributeError), falls into the bare
except, which writes the raw text. -/
def displayDamageBlock (loads : String → Option JVal) (text : String) :
    AspectView :=
  match loads text with
  | some (.jobj fs) =>
    .damage
      { location := jgetD fs "location" (.jstr "N/A")
      , type := jgetD fs "type" (.jstr "N/A")
      , severity := jgetD fs "severity" (.jstr "N/A")
      , severityStyle := severityStyle (jgetD fs "severity" (.jstr "N/A"))
      , repair_complexity := jgetD fs "repair_complexity" (.jstr "N/A")
      , complexityStyle := complexityStyle (jgetD fs "repair_complexity" (.jstr "N/A")) }
  | _ => .raw text

/-- Python iterability of a decoded JSON value (what a for loop accepts). -/
def pyIterable : JVal → Bool
  | .jarr _ => true
  | .jstr _ => true
  | .jobj _ => true
  | _ => false

/-- The Parts Analysis expander (src/app.py lines 121-136): a parse failure,
a non-dict parse, or a non-iterable field value raises inside the try and the
bare except writes the raw text. -/
def displayPartsBlock (loads : String → Option JVal) (text : String) :
    AspectView :=
  match loads text with
  | some (.jobj fs) =>
    let rp := jgetD fs "repair_parts" (.jarr [])
    let rep := jgetD fs "replacement_parts" (.jarr [])
    let ia := jgetD fs "inspection_areas" (.jarr [])
    if pyIterable rp && pyIterable rep && pyIterable ia then
      .parts { repair_parts := rp, replacement_parts := rep, inspection_areas := ia }
    else .raw text
  | _ => .raw text

/-- The Repair Recommendations expander (src/app.py lines 139-163): a parse
failure, a non-dict parse, or a non-str safety_considerations value (whose
.lower() raises AttributeError) falls into the bare except. -/
def displayRepairBlock (loads : String → Option JVal) (text : String) :
    AspectView :=
  match loads text with
  | some (.jobj fs) =>
    match jgetD fs "safety_considerations" (.jstr "N/A") with
    | .jstr notes =>
      .repair
        { repair_methods := jgetD fs "repair_methods" (.jstr "N/A")
        , repair_time := jgetD fs "repair_time" (.jstr "N/A")
        , specializedWarning := pyTruthy (jgetD fs "specialized_requirements" (.jbool false))
        , safety_considerations := notes
        , safetyStyle := safetyStyle notes }
    | _ => .raw text
  | _ => .raw text

/-- display_damage_analysis (src/app.py lines 87-163), per aspect. -/
def display_damage_analysis (loads : String → Option JVal)
    (results : List (Aspect × String)) : Aspect → AspectView
  | .damage_assessment => displayDamageBlock loads (getAspect results .damage_assessment)
  | .part_analysis => displayPartsBlock loads (getAspect results .part_analysis)
  | .repair_recommendations => displayRepairBlock loads (getAspect results .repair_recommendations)

/-- One row of the exported report (src/app.py lines 223-232). -/
structure ReportRow where
  image : String
  damageLocation : JVal
  damageType : JVal
  severity : JVal
  repairComplexity : JVal
  partsToReplace : String
  repairTime : JVal
  specialRequirements : JVal

/-- One iteration of the report loop of main (src/app.py lines 214-234),
given the analysis results of image i: the three json.loads calls, the
dict.get projections and the ", ".join of the replacement parts; none when
any of them raises, which the bare except turns into `continue` (the row is
dropped). -/
def buildRow (loads : String → Option JVal) (i : Nat)
    (results : List (Aspect × String)) : Option ReportRow :=
  match loads (getAspect results .damage_assessment) with
  | some (.jobj d) =>
    match loads (getAspect results .part_analysis) with
    | some (.jobj p) =>
      match loads (getAspect results .repair_recommendations) with
      | some (.jobj r) =>
        match pyJoin ", " (jgetD p "replacement_parts" (.jarr [])) with
        | some cell =>
          some
            { image := "Image " ++ toString (i + 1)
            , damageLocation := jgetD d "location" (.jstr "N/A")
            , damageType := jgetD d "type" (.jstr "N/A")
            , severity := jgetD d "severity" (.jstr "N/A")
            , repairComplexity := jgetD d "repair_complexity" (.jstr "N/A")
            , partsToReplace := cell
            , repairTime := jgetD r "repair_time" (.jstr "N/A")
            , specialRequirements := jgetD r "specialized_requirements" (.jstr "N/A") }
        | none => none
      | _ => none
    | _ => none
  | _ => none

/-- The report loop of main (src/app.py lines 213-234): re-runs
analyze_car_damage on every uploaded image, in upload order, and appends a
row unless the bare except fires. -/
def buildReport (loads : String → Option JVal)
    (call : String → String → Option String) (files : List String) :
    List ReportRow :=
  files.enum.filterMap (fun p => buildRow loads p.1 (analyze_car_damage call p.2))

end App

namespace AppLocal

/-- The text of PRESTAGED_RESULTS["damage_assessment"] (src/app_local.py
lines 18-24). -/
def prestagedDamage : String := "The damage is located on the side and rear of the car. It appears to be a significant impact, as evidenced by the crumpled metal panels and visible structural damage, which indicates that it could have been in a collision.

The type of damage includes a combination of denting and crushing, with some parts of the car's side and rear compartments completely destroyed or heavily deformed. There might also be internal damage to the vehicle not visible from this angle.

The damage is severe, as it has rendered the car essentially inoperable without extensive repairs or replacement of affected components.

The repair is likely to be complex, given the extent of the damage and the fact that multiple parts of the car's bodywork are severely deformed. The structural integrity of the vehicle may have been compromised, which would require careful assessment and potential reinforcement before any cosmetic repairs could be undertaken."

/-- The text of PRESTAGED_RESULTS["part_analysis"] (src/app_local.py lines
26-41). -/
def prestagedParts : String := "The car damage appears to affect several parts of the vehicle, including:

Front bumper and fender, which might be bent or cracked.
Hood, which is visibly damaged and may require replacement or significant repair work.
Windshield area, which could also have been impacted by the collision.
The passenger side doors and possibly the windows might have suffered damage as well.
Side mirrors may need to be checked for any potential damage not visible in this image.

Given the extent of the frontal damage, it is likely that parts of the engine bay or interior components (such as airbags) could also have been damaged during the collision and might require complete replacement or thorough inspection to ensure safety and functionality.

In addition to the visible damage, other areas that should be checked for related damage include:
- Underneath the vehicle, especially around the engine bay, suspension system, and frame for any structural damage.
- The brake lines and hydraulic lines might also have been damaged during the collision and would need to be inspected.
- The vehicle's electrical system, including the battery, alternator, wiring harness, and connectors.
- The fuel tank should be checked for potential damage that could lead to a fuel leak.
- Lastly, the vehicle's tires and wheels should be examined for possible damage or alignment issues caused by the impact."

/-- The text of PRESTAGED_RESULTS["repair_recommendations"] (src/app_local.py
lines 43-56). -/
def prestagedRepair : String := "Repair methods:
- Assess the structural integrity of the vehicle
- Remove damaged parts
- Assess for hidden damage
- Consider paintless dent removal (PDR)
- Repair or replace body panels
- Replace damaged mechanical components as necessary
- Address safety concerns

The repair time could take several days to several weeks, depending on the complexity and availability of parts.

Specialized tools and professional expertise will be required for frame alignment, dent removal, and mechanical component replacement.

Safety concerns include the integrity of the car's frame and overall structural safety. Professional inspection is crucial before returning the vehicle to service."

/-- PRESTAGED_RESULTS (src/app_local.py lines 17-57): the fixed canned
analysis mapping, with the three keys in insertion order. -/
def PRESTAGED_RESULTS : List (Aspect × String) :=
  [ (.damage_assessment, prestagedDamage)
  , (.part_analysis, prestagedParts)
  , (.repair_recommendations, prestagedRepair) ]

/-- CAR_DAMAGE_PROMPTS of src/app_local.py (lines 60-77). -/
def CAR_DAMAGE_PROMPTS : Aspect → String
  | .damage_assessment => "Look at this car damage image and answer these questions:
1. Where is the damage located? (which part of the car)
2. What type of damage is it? (dent, scratch, etc.)
3. How severe is the damage? (Minor/Moderate/Severe)
4. Is the repair likely to be Easy, Medium, or Complex?"
  | .part_analysis => "For this car damage:
1. Which parts need to be repaired?
2. Which parts might need complete replacement?
3. What other areas should be checked for related damage?"
  | .repair_recommendations => "Based on the visible car damage:
1. What repair methods would you recommend?
2. How long might the repair take?
3. Will this need specialized tools or skills?
4. Are there any safety concerns to consider?"

/-- Outcome of requests.post (src/app_local.py line 97): the call raised (a
network error), or returned a response with a status code and a body text. -/
inductive HttpResult where
  | raised
  | response (status : Nat) (body : String)

/-- The line loop of analyze_with_llava (src/app_local.py lines 102-110),
over the already-split lines, threading the response_text accumulator.
Empty lines are skipped (if line:); a line json.loads rejects is skipped by
the inner except json.JSONDecodeError; any other exception — the `in`
operator on a non-container parse result, or appending a non-str `response`
value — escapes to the outer handler, modelled by none. -/
def processLines (loads : String → Option JVal) :
    List String → String → Option String
  | [], acc => some acc
  | line :: rest, acc =>
    if line == "" then processLines loads rest acc
    else
      match loads line with
      | none => processLines loads rest acc
      | some (.jobj fs) =>
        if fs.any (fun p => p.1 == "response") then
          match jlookup fs "response" with
          | some (.jstr s) => processLines loads rest (acc ++ s)
          | _ => none
        else processLines loads rest acc
      | some (.jstr s) =>
        if strContains s "response" then none else processLines loads rest acc
      | some (.jarr elems) =>
        if elems.any (fun v => jeqStr v "response") then none
        else processLines loads rest acc
      | some _ => none

/-- analyze_with_llava (src/app_local.py lines 85-122): none models a raised
network error, a non-200 status, or a parse-loop exception; otherwise the
stripped concatenation of the parsed response fragments is returned.  The
transport and json.loads are oracles; Python str.strip and str.split are
modelled by pyStrip and pySplitLines. -/
def analyze_with_llava (loads : String → Option JVal)
    (net : String → String → HttpResult) (image prompt : String) :
    Option String :=
  match net image prompt with
  | .raised => none
  | .response status body =>
    if status == 200 then
      match processLines loads (pySplitLines (pyStrip body)) "" with
      | some text => some (pyStrip text)
      | none => none
    else none

/-- analyze_car_damage (src/app_local.py lines 124-141): the pre-staged
mapping when use_prestaged, otherwise one backend call per prompt, with the
sentinel substituted whenever the call yields a falsy value (None or the
empty string). -/
def analyze_car_damage (loads : String → Option JVal)
    (net : String → String → HttpResult) (image : String)
    (use_prestaged : Bool) : List (Aspect × String) :=
  if use_prestaged then PRESTAGED_RESULTS
  else
    aspects.map (fun a =>
      (a, match analyze_with_llava loads net image (CAR_DAMAGE_PROMPTS a) with
          | some r => if r == "" then "Analysis failed" else r
          | none => "Analysis failed"))

/-- One row of the local report (src/app_local.py lines 215-220): the raw
aspect texts beside the image label. -/
structure LocalReportRow where
  image : String
  damageAssessment : String
  partsAnalysis : String
  repairRecommendations : String

/-- The aspect columns of a local report row. -/
def LocalReportRow.aspect (row : LocalReportRow) : Aspect → String
  | .damage_assessment => row.damageAssessment
  | .part_analysis => row.partsAnalysis
  | .repair_recommendations => row.repairRecommendations

/-- The report loop of main (src/app_local.py lines 210-220): re-runs
analyze_car_damage on every uploaded image and always appends a row. -/
def buildReport (loads : String → Option JVal)
    (net : String → String → HttpResult) (files : List String)
    (use_prestaged : Bool) : List LocalReportRow :=
  files.enum.map (fun p =>
    let results := analyze_car_damage loads net p.2 use_prestaged
    { image := "Image " ++ toString (p.1 + 1)
    , damageAssessment := getAspect results .damage_assessment
    , partsAnalysis := getAspect results .part_analysis
    , repairRecommendations := getAspect results .repair_recommendations })

end AppLocal

/-- The specification's reading of the local response handling (spec §4.2,
§6): concatenate, in document (line) order, the response field of every line
that parses as a JSON object carrying that field, and skip every other
line.  Stated from the spec's words, to be compared with
AppLocal.analyze_with_llava. -/
def specConcatResponses (loads : String → Option JVal)
    (lines : List String) : String :=
  lines.foldl
    (fun acc line =>
      match loads line with
      | some (.jobj fs) =>
        match jlookup fs "response" with
        | some (.jstr s) => acc ++ s
        | _ => acc
      | _ => acc) ""

/-- Wellformedness of one response line under a parser: the line fails to
parse, or parses to a JSON object whose response field, when present, is a
string.  This is the shape of every line the local backend contract (spec
§6) produces. -/
def goodLine (loads : String → Option JVal) (line : String) : Bool :=
  match loads line with
  | none => true
  | some (.jobj fs) =>
    match jlookup fs "response" with
    | some (.jstr _) => true
    | none => true
    | some _ => false
  | some _ => false

/-! Concrete fixtures: realistic backend answers and the values json.loads
gives on exactly these texts, used to instantiate the oracles in witnesses
and counterexamples. -/

/-- A valid damage_assessment answer. -/
def djson : String := "\x7b\"location\": \"front bumper\", \"type\": \"dent\", \"severity\": \"Severe\", \"repair_complexity\": \"Complex\"\x7d"

/-- json.loads djson. -/
def djsonVal : JVal :=
  .jobj [ ("location", .jstr "front bumper"), ("type", .jstr "dent")
        , ("severity", .jstr "Severe"), ("repair_complexity", .jstr "Complex") ]

/-- A valid part_analysis answer with three distinct non-empty lists. -/
def pjson : String := "\x7b\"repair_parts\": [\"door\"], \"replacement_parts\": [\"bumper\", \"grille\"], \"inspection_areas\": [\"frame\"]\x7d"

/-- json.loads pjson. -/
def pjsonVal : JVal :=
  .jobj [ ("repair_parts", .jarr [.jstr "door"])
        , ("replacement_parts", .jarr [.jstr "bumper", .jstr "grille"])
        , ("inspection_areas", .jarr [.jstr "frame"]) ]

/-- A valid repair_recommendations answer with specialized_requirements true
and safety_considerations "No critical issues". -/
def rjson : String := "\x7b\"repair_methods\": \"replace panel\", \"repair_time\": \"2 days\", \"specialized_requirements\": true, \"safety_considerations\": \"No critical issues\"\x7d"

/-- json.loads rjson. -/
def rjsonVal : JVal :=
  .jobj [ ("repair_methods", .jstr "replace panel"), ("repair_time", .jstr "2 days")
        , ("specialized_requirements", .jbool true)
        , ("safety_considerations", .jstr "No critical issues") ]

/-- A generate-style response line whose response fragment carries leading
whitespace. -/
def c4line : String := "\x7b\"response\": \" a\"\x7d"

/-- json.loads c4line. -/
def c4lineVal : JVal := .jobj [("response", .jstr " a")]

/-- json.loads restricted to the fixture texts: every other string (the
sentinel "Analysis failed" among them) is not valid JSON and raises, which
none models. -/
def loadsTable : String → Option JVal := fun s =>
  if s == djson then some djsonVal
  else if s == pjson then some pjsonVal
  else if s == rjson then some rjsonVal
  else if s == c4line then some c4lineVal
  else none

/-- A remote backend that answers every prompt of every image with the
fixture JSON for that prompt. -/
def callC7 : String → String → Option String := fun _ prompt =>
  if prompt == App.CAR_DAMAGE_PROMPTS .damage_assessment then some djson
  else if prompt == App.CAR_DAMAGE_PROMPTS .part_analysis then some pjson
  else some rjson

/-- callC7 with one injected failure: the damage_assessment call of image
"img2" raises a network error. -/
def callC3 : String → String → Option String := fun image prompt =>
  if image == "img2" && prompt == App.CAR_DAMAGE_PROMPTS .damage_assessment then none
  else callC7 image prompt

/-- A local backend answering every call with status 200 and the c4line
body. -/
def netC4 : String → String → AppLocal.HttpResult := fun _ _ => .response 200 c4line

/-- netC4 with one injected failure: the damage_assessment call of image
"img2" raises a network error. -/
def netC3 : String → String → AppLocal.HttpResult := fun image prompt =>
  if image == "img2" && prompt == AppLocal.CAR_DAMAGE_PROMPTS .damage_assessment then .raised
  else netC4 image prompt

/-! Helper lemmas, shared between the claims. -/

/-- Indexing the per-aspect results dict built by the analysis loops. -/
theorem getAspect_map (g : Aspect → String) (a : Aspect) :
    getAspect (aspects.map (fun x => (x, g x))) a = g a := by
  cases a <;> rfl

/-- What the remote analyze_car_damage records for one aspect. -/
theorem getAspect_analyze_remote (call : String → String → Option String)
    (image : String) (a : Aspect) :
    getAspect (App.analyze_car_damage call image) a
      = match call image (App.CAR_DAMAGE_PROMPTS a) with
        | some content => content
        | none => "Analysis failed" :=
  getAspect_map _ a

/-- What the local analyze_car_damage records for one aspect when not using
the pre-staged results. -/
theorem getAspect_analyze_local (loads : String → Option JVal)
    (net : String → String → AppLocal.HttpResult) (image : String) (a : Aspect) :
    getAspect (AppLocal.analyze_car_damage loads net image false) a
      = match AppLocal.analyze_with_llava loads net image (AppLocal.CAR_DAMAGE_PROMPTS a) with
        | some r => if r == "" then "Analysis failed" else r
        | none => "Analysis failed" := by
  have h : AppLocal.analyze_car_damage loads net image false
      = aspects.map (fun x =>
          (x, match AppLocal.analyze_with_llava loads net image (AppLocal.CAR_DAMAGE_PROMPTS x) with
              | some r => if r == "" then "Analysis failed" else r
              | none => "Analysis failed")) := rfl
  rw [h, getAspect_map]

/-- jeqStr decides equality with a string value. -/
theorem jeqStr_iff (v : JVal) (s : String) : jeqStr v s = true ↔ v = .jstr s := by
  cases v <;> simp [jeqStr]

/-- strContains is substring containment. -/
theorem strContains_iff (s sub : String) :
    strContains s sub = true ↔ sub.toList <:+: s.toList := by
  constructor
  · intro h
    obtain ⟨i, _, hp⟩ := List.any_eq_true.mp h
    obtain ⟨t, ht⟩ := List.isPrefixOf_iff_prefix.mp hp
    refine ⟨s.toList.take i, t, ?_⟩
    rw [List.append_assoc, ht, List.take_append_drop]
  · rintro ⟨u, v, huv⟩
    apply List.any_eq_true.mpr
    refine ⟨u.length, List.mem_range.mpr ?_, ?_⟩
    · have := congrArg List.length huv
      rw [List.length_append, List.length_append] at this
      omega
    · apply List.isPrefixOf_iff_prefix.mpr
      refine ⟨v, ?_⟩
      rw [← huv, List.append_assoc, List.drop_left]

/-- A list of strings decoded from JSON is read back as itself. -/
theorem asStrings_map (l : List String) : asStrings (l.map JVal.jstr) = some l := by
  induction l with
  | nil => rfl
  | cons h t ih => simp [asStrings, ih]

/-- The key-membership test of the line loop agrees with the lookup. -/
theorem any_key_eq_isSome (fs : List (String × JVal)) (k : String) :
    fs.any (fun p => p.1 == k) = (jlookup fs k).isSome := by
  induction fs with
  | nil => rfl
  | cons hd tl ih =>
    by_cases h : hd.1 == k
    · simp [jlookup, List.find?_cons_of_pos, h]
    · simp only [List.any_cons, h, Bool.false_or]
      rw [ih]
      simp [jlookup, List.find?_cons_of_neg, h]

/-- filterMap over a two-element list. -/
theorem filterMap_pair {α β : Type} (f : α → Option β) (x y : α) :
    List.filterMap f [x, y] = (f x).toList ++ (f y).toList := by
  cases hx : f x <;> cases hy : f y <;> simp [List.filterMap_cons, hx, hy]

/-- A report row of the remote variant is dropped whenever json.loads raises
on one of the three aspect texts. -/
theorem buildRow_none (loads : String → Option JVal) (i : Nat)
    (results : List (Aspect × String)) (a : Aspect)
    (h : loads (getAspect results a) = none) :
    App.buildRow loads i results = none := by
  cases a with
  | damage_assessment => simp [App.buildRow, h]
  | part_analysis =>
    cases hv : loads (getAspect results .damage_assessment) with
    | none => simp [App.buildRow, hv]
    | some v => cases v <;> simp [App.buildRow, hv, h]
  | repair_recommendations =>
    cases hv : loads (getAspect results .damage_assessment) with
    | none => simp [App.buildRow, hv]
    | some v =>
      cases v <;> try simp [App.buildRow, hv]
      case jobj d =>
        cases hw : loads (getAspect results .part_analysis) with
        | none => simp [App.buildRow, hv, hw]
        | some w => cases w <;> simp [App.buildRow, hv, hw, h]

/-- The line loop computes the specification's concatenation when every line
is wellformed and the empty line does not parse (json.loads rejects it). -/
theorem processLines_eq_spec (loads : String → Option JVal)
    (hnil : loads "" = none) (lines : List String) (acc : String)
    (hgood : ∀ line ∈ lines, goodLine loads line = true) :
    AppLocal.processLines loads lines acc
      = some (lines.foldl
          (fun a line =>
            match loads line with
            | some (.jobj fs) =>
              match jlookup fs "response" with
              | some (.jstr s) => a ++ s
              | _ => a
            | _ => a) acc) := by
  induction lines generalizing acc with
  | nil => rfl
  | cons line rest ih =>
    have hgood_rest : ∀ l ∈ rest, goodLine loads l = true :=
      fun l hl => hgood l (List.mem_cons_of_mem _ hl)
    have hgood_line : goodLine loads line = true := hgood line (List.mem_cons_self _ _)
    have ih' := fun (a : String) => ih a hgood_rest
    by_cases hline : line = ""
    · subst hline
      simp [AppLocal.processLines, hnil, ih']
    · have hbeq : (line == "") = false := by simp [hline]
      cases hl : loads line with
      | none => simp [AppLocal.processLines, hbeq, hl, ih']
      | some v =>
        cases v with
        | jobj fs =>
          cases hr : jlookup fs "response" with
          | none =>
            have hany : fs.any (fun p => p.1 == "response") = false := by
              rw [any_key_eq_isSome, hr]; rfl
            simp [AppLocal.processLines, hbeq, hl, hany, hr, ih']
          | some w =>
            have hany : fs.any (fun p => p.1 == "response") = true := by
              rw [any_key_eq_isSome, hr]; rfl
            cases w with
            | jstr s => simp [AppLocal.processLines, hbeq, hl, hany, hr, ih']
            | jnull => simp [goodLine, hl, hr] at hgood_line
            | jbool b => simp [goodLine, hl, hr] at hgood_line
            | jnum n => simp [goodLine, hl, hr] at hgood_line
            | jarr es => simp [goodLine, hl, hr] at hgood_line
            | jobj gs => simp [goodLine, hl, hr] at hgood_line
        | jnull => simp [goodLine, hl] at hgood_line
        | jbool b => simp [goodLine, hl] at hgood_line
        | jnum n => simp [goodLine, hl] at hgood_line
        | jstr s => simp [goodLine, hl] at hgood_line
        | jarr es => simp [goodLine, hl] at hgood_line

/-! The claims. -/

/-- C1: every analysis result carries exactly the three fixed aspect keys
(damage_assessment, part_analysis, repair_recommendations), in both the
remote and the local variant; when the backend call for an aspect fails the
key is still present and maps to the sentinel failure string. -/
theorem C1_fixed_keys_and_sentinel
    (call : String → String → Option String) (loads : String → Option JVal)
    (net : String → String → AppLocal.HttpResult) (image : String)
    (use_prestaged : Bool) (a : Aspect)
    (hcall : call image (App.CAR_DAMAGE_PROMPTS a) = none)
    (hnet : net image (AppLocal.CAR_DAMAGE_PROMPTS a) = .raised) :
    ((App.analyze_car_damage call image).map (fun p => p.1.key)
        = ["damage_assessment", "part_analysis", "repair_recommendations"])
    ∧ ((AppLocal.analyze_car_damage loads net image use_prestaged).map (fun p => p.1.key)
        = ["damage_assessment", "part_analysis", "repair_recommendations"])
    ∧ getAspect (App.analyze_car_damage call image) a = "Analysis failed"
    ∧ getAspect (AppLocal.analyze_car_damage loads net image false) a = "Analysis failed" := by
  refine ⟨rfl, ?_, ?_, ?_⟩
  · cases use_prestaged <;> rfl
  · rw [getAspect_analyze_remote, hcall]
  · rw [getAspect_analyze_local]
    simp [AppLocal.analyze_with_llava, hnet]

/-- C1 witness: the failing backend at a concrete input. -/
theorem C1_witness :
    (((App.analyze_car_damage (fun _ _ => none) "img").map (fun p => p.1.key))
        = ["damage_assessment", "part_analysis", "repair_recommendations"])
    ∧ (((AppLocal.analyze_car_damage (fun _ => none) (fun _ _ => .raised) "img" false).map
          (fun p => p.1.key))
        = ["damage_assessment", "part_analysis", "repair_recommendations"])
    ∧ getAspect (App.analyze_car_damage (fun _ _ => none) "img") .damage_assessment
        = "Analysis failed"
    ∧ getAspect (AppLocal.analyze_car_damage (fun _ => none) (fun _ _ => .raised) "img" false)
        .damage_assessment = "Analysis failed" :=
  C1_fixed_keys_and_sentinel (fun _ _ => none) (fun _ => none) (fun _ _ => .raised)
    "img" false .damage_assessment rfl rfl

/-- C2: a network error, a non-success status, or a response whose parse
loop fails all make the aspect's value the sentinel "Analysis failed" in the
local variant, as does any raised exception in the remote variant, and the
remaining aspects — whose backend calls are unchanged — keep exactly the
values of the failure-free run: one aspect's failure never aborts the
others. -/
theorem C2_failure_is_isolated
    (loads : String → Option JVal)
    (net netF : String → String → AppLocal.HttpResult)
    (call callF : String → String → Option String)
    (image : String) (a : Aspect)
    (hfail :
      netF image (AppLocal.CAR_DAMAGE_PROMPTS a) = .raised
      ∨ (∃ status body, netF image (AppLocal.CAR_DAMAGE_PROMPTS a) = .response status body
           ∧ status ≠ 200)
      ∨ (∃ body, netF image (AppLocal.CAR_DAMAGE_PROMPTS a) = .response 200 body
           ∧ AppLocal.processLines loads (pySplitLines (pyStrip body)) "" = none))
    (hagree : ∀ b, b ≠ a →
      netF image (AppLocal.CAR_DAMAGE_PROMPTS b) = net image (AppLocal.CAR_DAMAGE_PROMPTS b))
    (hfail_r : callF image (App.CAR_DAMAGE_PROMPTS a) = none)
    (hagree_r : ∀ b, b ≠ a →
      callF image (App.CAR_DAMAGE_PROMPTS b) = call image (App.CAR_DAMAGE_PROMPTS b)) :
    getAspect (AppLocal.analyze_car_damage loads netF image false) a = "Analysis failed"
    ∧ (∀ b, b ≠ a →
        getAspect (AppLocal.analyze_car_damage loads netF image false) b
          = getAspect (AppLocal.analyze_car_damage loads net image false) b)
    ∧ getAspect (App.analyze_car_damage callF image) a = "Analysis failed"
    ∧ (∀ b, b ≠ a →
        getAspect (App.analyze_car_damage callF image) b
          = getAspect (App.analyze_car_damage call image) b) := by
  refine ⟨?_, ?_, ?_, ?_⟩
  · rw [getAspect_analyze_local]
    rcases hfail with h | ⟨status, body, h, hst⟩ | ⟨body, h, hpl⟩
    · simp [AppLocal.analyze_with_llava, h]
    · simp [AppLocal.analyze_with_llava, h, hst]
    · simp [AppLocal.analyze_with_llava, h, hpl]
  · intro b hb
    rw [getAspect_analyze_local, getAspect_analyze_local]
    rw [show AppLocal.analyze_with_llava loads netF image (AppLocal.CAR_DAMAGE_PROMPTS b)
          = AppLocal.analyze_with_llava loads net image (AppLocal.CAR_DAMAGE_PROMPTS b) from by
      simp only [AppLocal.analyze_with_llava, hagree b hb]]
  · rw [getAspect_analyze_remote, hfail_r]
  · intro b hb
    rw [getAspect_analyze_remote, getAspect_analyze_remote, hagree_r b hb]

/-- C2 witness: backends whose every call raises, at aspect
damage_assessment. -/
theorem C2_witness :
    getAspect (AppLocal.analyze_car_damage (fun _ => none) (fun _ _ => .raised) "img" false)
        .damage_assessment = "Analysis failed"
    ∧ (∀ b, b ≠ Aspect.damage_assessment →
        getAspect (AppLocal.analyze_car_damage (fun _ => none) (fun _ _ => .raised) "img" false) b
          = getAspect (AppLocal.analyze_car_damage (fun _ => none) (fun _ _ => .raised) "img" false) b)
    ∧ getAspect (App.analyze_car_damage (fun _ _ => none) "img") .damage_assessment
        = "Analysis failed"
    ∧ (∀ b, b ≠ Aspect.damage_assessment →
        getAspect (App.analyze_car_damage (fun _ _ => none) "img") b
          = getAspect (App.analyze_car_damage (fun _ _ => none) "img") b) :=
  C2_failure_is_isolated (fun _ => none) (fun _ _ => .raised) (fun _ _ => .raised)
    (fun _ _ => none) (fun _ _ => none)
    "img" .damage_assessment (Or.inl rfl) (fun _ _ => rfl) rfl (fun _ _ => rfl)

/-- C5: the result normalization of display is total via the bare except of
each expander: whenever json.loads fails on an aspect's text, that expander
renders the original raw text unchanged instead of structured fields. -/
theorem C5_parse_failure_renders_raw (loads : String → Option JVal)
    (results : List (Aspect × String)) (a : Aspect)
    (h : loads (getAspect results a) = none) :
    App.display_damage_analysis loads results a = .raw (getAspect results a) := by
  cases a with
  | damage_assessment =>
    simp [App.display_damage_analysis, App.displayDamageBlock, h]
  | part_analysis =>
    simp [App.display_damage_analysis, App.displayPartsBlock, h]
  | repair_recommendations =>
    simp [App.display_damage_analysis, App.displayRepairBlock, h]

/-- C5 witness: a parser that rejects everything, on the sentinel text. -/
theorem C5_witness :
    App.display_damage_analysis (fun _ => none) [(.damage_assessment, "Analysis failed")]
        .damage_assessment
      = .raw (getAspect [(.damage_assessment, "Analysis failed")] .damage_assessment) :=
  C5_parse_failure_renders_raw (fun _ => none) [(.damage_assessment, "Analysis failed")]
    .damage_assessment rfl

/-- C6: the display maps severity "Severe" and complexity "Complex" to
alert-level styling, severity "Moderate" and complexity "Medium" to
warning-level styling, any other value to success-level styling; and a
safety-considerations text containing "critical" (case-insensitively) is
rendered at alert level whatever the other fields are. -/
theorem C6_severity_styling
    (loads : String → Option JVal) (t u : String)
    (fs gs : List (String × JVal)) (notes : String)
    (hload : loads t = some (.jobj fs)) (hload2 : loads u = some (.jobj gs))
    (hnotes : jgetD gs "safety_considerations" (.jstr "N/A") = .jstr notes) :
    (∀ v, App.displayDamageBlock loads t = .damage v →
       ((v.severity = .jstr "Severe" → v.severityStyle = .alert)
        ∧ (v.severity = .jstr "Moderate" → v.severityStyle = .warning)
        ∧ (v.severity ≠ .jstr "Severe" → v.severity ≠ .jstr "Moderate" →
            v.severityStyle = .success)
        ∧ (v.repair_complexity = .jstr "Complex" → v.complexityStyle = .alert)
        ∧ (v.repair_complexity = .jstr "Medium" → v.complexityStyle = .warning)
        ∧ (v.repair_complexity ≠ .jstr "Complex" → v.repair_complexity ≠ .jstr "Medium" →
            v.complexityStyle = .success)))
    ∧ (∀ v, App.displayRepairBlock loads u = .repair v →
        ("critical".toList <:+: (pyLower v.safety_considerations).toList →
          v.safetyStyle = .alert)) := by
  have sevStyle : ∀ w : JVal,
      (w = .jstr "Severe" → App.severityStyle w = .alert)
      ∧ (w = .jstr "Moderate" → App.severityStyle w = .warning)
      ∧ (w ≠ .jstr "Severe" → w ≠ .jstr "Moderate" → App.severityStyle w = .success) := by
    intro w
    refine ⟨fun h => ?_, fun h => ?_, fun h1 h2 => ?_⟩
    · subst h; rfl
    · subst h; rfl
    · simp [App.severityStyle, jeqStr_iff, h1, h2]
  have cplStyle : ∀ w : JVal,
      (w = .jstr "Complex" → App.complexityStyle w = .alert)
      ∧ (w = .jstr "Medium" → App.complexityStyle w = .warning)
      ∧ (w ≠ .jstr "Complex" → w ≠ .jstr "Medium" → App.complexityStyle w = .success) := by
    intro w
    refine ⟨fun h => ?_, fun h => ?_, fun h1 h2 => ?_⟩
    · subst h; rfl
    · subst h; rfl
    · simp [App.complexityStyle, jeqStr_iff, h1, h2]
  constructor
  · intro v hv
    rw [show App.displayDamageBlock loads t
          = .damage
              { location := jgetD fs "location" (.jstr "N/A")
              , type := jgetD fs "type" (.jstr "N/A")
              , severity := jgetD fs "severity" (.jstr "N/A")
              , severityStyle := App.severityStyle (jgetD fs "severity" (.jstr "N/A"))
              , repair_complexity := jgetD fs "repair_complexity" (.jstr "N/A")
              , complexityStyle := App.complexityStyle (jgetD fs "repair_complexity" (.jstr "N/A")) }
        from by simp [App.displayDamageBlock, hload]] at hv
    cases hv
    exact ⟨(sevStyle _).1, (sevStyle _).2.1, (sevStyle _).2.2,
           (cplStyle _).1, (cplStyle _).2.1, (cplStyle _).2.2⟩
  · intro v hv
    rw [show App.displayRepairBlock loads u
          = .repair
              { repair_methods := jgetD gs "repair_methods" (.jstr "N/A")
              , repair_time := jgetD gs "repair_time" (.jstr "N/A")
              , specializedWarning := pyTruthy (jgetD gs "specialized_requirements" (.jbool false))
              , safety_considerations := notes
              , safetyStyle := App.safetyStyle notes }
        from by simp [App.displayRepairBlock, hload2, hnotes]] at hv
    cases hv
    intro hsub
    have : strContains (pyLower notes) "critical" = true := (strContains_iff _ _).mpr hsub
    simp [App.safetyStyle, this]

/-- C6 witness: the fixture damage and repair answers. -/
theorem C6_witness :
    (∀ v, App.displayDamageBlock loadsTable djson = .damage v →
       ((v.severity = .jstr "Severe" → v.severityStyle = .alert)
        ∧ (v.severity = .jstr "Moderate" → v.severityStyle = .warning)
        ∧ (v.severity ≠ .jstr "Severe" → v.severity ≠ .jstr "Moderate" →
            v.severityStyle = .success)
        ∧ (v.repair_complexity = .jstr "Complex" → v.complexityStyle = .alert)
        ∧ (v.repair_complexity = .jstr "Medium" → v.complexityStyle = .warning)
        ∧ (v.repair_complexity ≠ .jstr "Complex" → v.repair_complexity ≠ .jstr "Medium" →
            v.complexityStyle = .success)))
    ∧ (∀ v, App.displayRepairBlock loadsTable rjson = .repair v →
        ("critical".toList <:+: (pyLower v.safety_considerations).toList →
          v.safetyStyle = .alert)) :=
  C6_severity_styling loadsTable djson rjson
    [ ("location", .jstr "front bumper"), ("type", .jstr "dent")
    , ("severity", .jstr "Severe"), ("repair_complexity", .jstr "Complex") ]
    [ ("repair_methods", .jstr "replace panel"), ("repair_time", .jstr "2 days")
    , ("specialized_requirements", .jbool true)
    , ("safety_considerations", .jstr "No critical issues") ]
    "No critical issues" rfl rfl rfl

/-- C9: with the pre-staged option enabled, the local analyze_car_damage
returns the fixed PRESTAGED_RESULTS mapping for every image, so any two
images — whatever the parser, the backend or the image bytes — yield
identical results and identical report-row contents apart from the image
label. -/
theorem C9_prestaged_image_independent
    (loads loadsB : String → Option JVal)
    (net netB : String → String → AppLocal.HttpResult) (img imgB : String) :
    AppLocal.analyze_car_damage loads net img true = AppLocal.PRESTAGED_RESULTS
    ∧ AppLocal.analyze_car_damage loads net img true
        = AppLocal.analyze_car_damage loadsB netB imgB true
    ∧ (AppLocal.buildReport loads net [img] true).map
        (fun row => (row.damageAssessment, row.partsAnalysis, row.repairRecommendations))
      = (AppLocal.buildReport loadsB netB [imgB] true).map
        (fun row => (row.damageAssessment, row.partsAnalysis, row.repairRecommendations)) :=
  ⟨rfl, rfl, rfl⟩

/-- C10: in the local variant, a success-status response whose parse loop
yields a concatenation that strips to the empty string makes the aspect's
value the sentinel "Analysis failed", never the empty string. -/
theorem C10_empty_concatenation_sentinel
    (loads : String → Option JVal) (net : String → String → AppLocal.HttpResult)
    (image : String) (a : Aspect) (body : String)
    (hnet : net image (AppLocal.CAR_DAMAGE_PROMPTS a) = .response 200 body)
    (hempty : ∀ t, AppLocal.processLines loads (pySplitLines (pyStrip body)) "" = some t →
        pyStrip t = "") :
    getAspect (AppLocal.analyze_car_damage loads net image false) a = "Analysis failed"
    ∧ ("Analysis failed" : String) ≠ "" := by
  refine ⟨?_, by decide⟩
  rw [getAspect_analyze_local]
  simp only [AppLocal.analyze_with_llava, hnet]
  cases hpl : AppLocal.processLines loads (pySplitLines (pyStrip body)) "" with
  | none => rfl
  | some t =>
    have ht := hempty t hpl
    simp [ht]

/-- C10 witness: a success response with an empty body. -/
theorem C10_witness :
    getAspect (AppLocal.analyze_car_damage (fun _ => none) (fun _ _ => .response 200 "")
        "img" false) .damage_assessment = "Analysis failed"
    ∧ ("Analysis failed" : String) ≠ "" :=
  C10_empty_concatenation_sentinel (fun _ => none) (fun _ _ => .response 200 "")
    "img" .damage_assessment "" rfl
    (fun t ht => by
      have h0 : AppLocal.processLines (fun _ => none) (pySplitLines (pyStrip "")) ""
          = some "" := by decide
      rw [h0] at ht
      cases ht
      decide)

/-- C3 counterexample: two uploaded images where the damage_assessment call
of image 2 raises a network error, all other calls succeed with valid JSON,
and json.loads is the real parser on the involved texts.  The remote
variant's final report holds one row, for image 1 alone: image 2's row is
dropped, because its damage_assessment text is the sentinel, json.loads
raises on it and the bare except skips the row.  The claim's promise of one
row for each of the two images fails. -/
theorem C3_counterexample :
    ((App.buildReport loadsTable callC3 ["img1", "img2"]).map App.ReportRow.image
        = ["Image 1"])
    ∧ (App.buildReport loadsTable callC3 ["img1", "img2"]).length = 1 := by
  constructor <;> rfl

/-- C3 amended: when the backend call for one aspect of one of two uploaded
images fails with a network error, the unaffected image's report row is
exactly that of the failure-free run in both variants; in the local variant
the affected image also gets a row, whose failing aspect is the sentinel
string and whose other aspect values are unchanged; in the remote variant
the affected image's row is omitted from the report, because the sentinel is
not parseable JSON. -/
theorem C3_amended_row_fate
    (loads lloads : String → Option JVal)
    (call callF : String → String → Option String)
    (net netF : String → String → AppLocal.HttpResult)
    (img1 img2 : String) (a : Aspect)
    (hfail_r : callF img2 (App.CAR_DAMAGE_PROMPTS a) = none)
    (hfail_l : netF img2 (AppLocal.CAR_DAMAGE_PROMPTS a) = .raised)
    (hagree_r1 : ∀ prompt, callF img1 prompt = call img1 prompt)
    (hagree_l1 : ∀ prompt, netF img1 prompt = net img1 prompt)
    (hagree_l2 : ∀ b, b ≠ a →
      netF img2 (AppLocal.CAR_DAMAGE_PROMPTS b) = net img2 (AppLocal.CAR_DAMAGE_PROMPTS b))
    (hsent : loads "Analysis failed" = none) :
    ((AppLocal.buildReport lloads netF [img1, img2] false).map AppLocal.LocalReportRow.image
        = ["Image 1", "Image 2"])
    ∧ AppLocal.analyze_car_damage lloads netF img1 false
        = AppLocal.analyze_car_damage lloads net img1 false
    ∧ getAspect (AppLocal.analyze_car_damage lloads netF img2 false) a = "Analysis failed"
    ∧ (∀ b, b ≠ a →
        getAspect (AppLocal.analyze_car_damage lloads netF img2 false) b
          = getAspect (AppLocal.analyze_car_damage lloads net img2 false) b)
    ∧ App.buildReport loads callF [img1, img2]
        = (App.buildRow loads 0 (App.analyze_car_damage call img1)).toList := by
  refine ⟨?_, ?_, ?_, ?_, ?_⟩
  · show ["Image " ++ toString (0 + 1), "Image " ++ toString (1 + 1)] = ["Image 1", "Image 2"]
    rfl
  · simp only [AppLocal.analyze_car_damage, AppLocal.analyze_with_llava, hagree_l1]
  · rw [getAspect_analyze_local]
    simp [AppLocal.analyze_with_llava, hfail_l]
  · intro b hb
    rw [getAspect_analyze_local, getAspect_analyze_local]
    rw [show AppLocal.analyze_with_llava lloads netF img2 (AppLocal.CAR_DAMAGE_PROMPTS b)
          = AppLocal.analyze_with_llava lloads net img2 (AppLocal.CAR_DAMAGE_PROMPTS b) from by
      simp only [AppLocal.analyze_with_llava, hagree_l2 b hb]]
  · have hres1 : App.analyze_car_damage callF img1 = App.analyze_car_damage call img1 := by
      simp only [App.analyze_car_damage, hagree_r1]
    have hsen2 : getAspect (App.analyze_car_damage callF img2) a = "Analysis failed" := by
      rw [getAspect_analyze_remote, hfail_r]
    have hrow2 : App.buildRow loads 1 (App.analyze_car_damage callF img2) = none :=
      buildRow_none loads 1 _ a (by rw [hsen2, hsent])
    have henum : (([img1, img2] : List String)).enum = [(0, img1), (1, img2)] := rfl
    show List.filterMap _ (([img1, img2] : List String)).enum = _
    rw [henum, filterMap_pair]
    show (App.buildRow loads 0 (App.analyze_car_damage callF img1)).toList
        ++ (App.buildRow loads 1 (App.analyze_car_damage callF img2)).toList = _
    rw [hres1, hrow2, Option.toList_none, List.append_nil]

/-- C3 witness: the fixture scenario of the counterexample, applied to the
amended statement. -/
theorem C3_witness :
    ((AppLocal.buildReport loadsTable netC3 ["img1", "img2"] false).map
        AppLocal.LocalReportRow.image = ["Image 1", "Image 2"])
    ∧ AppLocal.analyze_car_damage loadsTable netC3 "img1" false
        = AppLocal.analyze_car_damage loadsTable netC4 "img1" false
    ∧ getAspect (AppLocal.analyze_car_damage loadsTable netC3 "img2" false)
        .damage_assessment = "Analysis failed"
    ∧ (∀ b, b ≠ Aspect.damage_assessment →
        getAspect (AppLocal.analyze_car_damage loadsTable netC3 "img2" false) b
          = getAspect (AppLocal.analyze_car_damage loadsTable netC4 "img2" false) b)
    ∧ App.buildReport loadsTable callC3 ["img1", "img2"]
        = (App.buildRow loadsTable 0 (App.analyze_car_damage callC7 "img1")).toList :=
  C3_amended_row_fate loadsTable loadsTable callC7 callC3 netC4 netC3
    "img1" "img2" .damage_assessment rfl rfl (fun _ => rfl) (fun _ => rfl)
    (fun b hb => by
      cases b with
      | damage_assessment => exact absurd rfl hb
      | part_analysis => rfl
      | repair_recommendations => rfl)
    rfl

/-- C4 counterexample: a success response whose single line is the JSON
object with response fragment " a".  The concatenation of the response
fields is " a", but analyze_with_llava returns "a": the code strips the
concatenation before returning it, so the returned rawText differs from the
concatenation whenever that carries leading or trailing whitespace. -/
theorem C4_counterexample :
    AppLocal.analyze_with_llava loadsTable netC4 "img" "prompt" = some "a"
    ∧ specConcatResponses loadsTable (pySplitLines (pyStrip c4line)) = " a"
    ∧ ("a" : String) ≠ " a" := by
  refine ⟨by decide, by decide, by decide⟩

/-- C4 amended: for a success response whose lines each either fail to parse
or parse to a JSON object whose response field (when present) is a string —
the shape the local backend contract produces — the returned rawText is the
concatenation, in document (line) order, of the response fields of the lines
that parse to objects carrying that field, stripped of leading and trailing
whitespace; and a line that fails to parse is skipped without affecting the
contribution of earlier or later lines. -/
theorem C4_amended_concatenation
    (loads : String → Option JVal) (net : String → String → AppLocal.HttpResult)
    (image prompt body : String)
    (hnet : net image prompt = .response 200 body)
    (hnil : loads "" = none)
    (hgood : ∀ line ∈ pySplitLines (pyStrip body), goodLine loads line = true) :
    AppLocal.analyze_with_llava loads net image prompt
      = some (pyStrip (specConcatResponses loads (pySplitLines (pyStrip body))))
    ∧ (∀ pre post bad, loads bad = none →
        specConcatResponses loads (pre ++ bad :: post)
          = specConcatResponses loads (pre ++ post)) := by
  constructor
  · simp only [AppLocal.analyze_with_llava, hnet]
    rw [processLines_eq_spec loads hnil _ "" hgood]
    rfl
  · intro pre post bad hbad
    simp only [specConcatResponses, List.foldl_append, List.foldl_cons, hbad]

/-- C4 witness: the fixture response line, whose parse is wellformed. -/
theorem C4_witness :
    AppLocal.analyze_with_llava loadsTable netC4 "img" "prompt"
      = some (pyStrip (specConcatResponses loadsTable (pySplitLines (pyStrip c4line))))
    ∧ (∀ pre post bad, loadsTable bad = none →
        specConcatResponses loadsTable (pre ++ bad :: post)
          = specConcatResponses loadsTable (pre ++ post)) :=
  C4_amended_concatenation loadsTable netC4 "img" "prompt" c4line rfl rfl (by decide)

/-- C7 counterexample: with the backend answering valid JSON carrying
safety_considerations "No critical issues", the displayed safety-note field
is rendered at alert-level styling, not at a non-alert level: the text does
contain the substring "critical", so st.error is used. -/
theorem C7_counterexample :
    App.displayRepairBlock loadsTable rjson
      = .repair
          { repair_methods := .jstr "replace panel"
          , repair_time := .jstr "2 days"
          , specializedWarning := true
          , safety_considerations := "No critical issues"
          , safetyStyle := .alert }
    ∧ Style.alert ≠ Style.info := by
  refine ⟨rfl, by decide⟩

/-- C7 amended: for one uploaded image whose backend returns valid JSON for
all three aspects with severity "Severe", specialized_requirements true and
safety_considerations "No critical issues", the report row records severity
"Severe" and specialized requirements true, the displayed severity field is
rendered at alert-level styling, and the displayed safety-note field is
rendered at alert-level styling too, because "No critical issues" contains
the substring "critical". -/
theorem C7_amended_severe_report
    : ((App.buildReport loadsTable callC7 ["img"]).map
          (fun row => (row.severity, row.specialRequirements)))
        = [(.jstr "Severe", .jbool true)]
    ∧ App.displayDamageBlock loadsTable djson
        = .damage
            { location := .jstr "front bumper"
            , type := .jstr "dent"
            , severity := .jstr "Severe"
            , severityStyle := .alert
            , repair_complexity := .jstr "Complex"
            , complexityStyle := .alert }
    ∧ App.displayRepairBlock loadsTable rjson
        = .repair
            { repair_methods := .jstr "replace panel"
            , repair_time := .jstr "2 days"
            , specializedWarning := true
            , safety_considerations := "No critical issues"
            , safetyStyle := .alert } := by
  refine ⟨rfl, rfl, rfl⟩

/-- C8: when the part_analysis response parses to a JSON object with three
distinct non-empty string lists for repair_parts, replacement_parts and
inspection_areas (and the other two aspects parse to objects, so the row is
built at all), the "Parts to Replace" cell of the image's report row is the
elements of exactly the replacement_parts list joined by ", " in original
order, and — the lists being disjoint — contains no element of the other two
lists. -/
theorem C8_replacement_parts_cell
    (loads : String → Option JVal) (call : String → String → Option String)
    (image : String) (i : Nat)
    (d p r : List (String × JVal)) (rep rpr ins : List String)
    (hd : loads (getAspect (App.analyze_car_damage call image) .damage_assessment)
        = some (.jobj d))
    (hp : loads (getAspect (App.analyze_car_damage call image) .part_analysis)
        = some (.jobj p))
    (hr : loads (getAspect (App.analyze_car_damage call image) .repair_recommendations)
        = some (.jobj r))
    (hrep : jlookup p "replacement_parts" = some (.jarr (rep.map JVal.jstr)))
    (hrpr : jlookup p "repair_parts" = some (.jarr (rpr.map JVal.jstr)))
    (hins : jlookup p "inspection_areas" = some (.jarr (ins.map JVal.jstr)))
    (hne1 : rep ≠ []) (hne2 : rpr ≠ []) (hne3 : ins ≠ [])
    (hd1 : rep ≠ rpr) (hd2 : rep ≠ ins) (hd3 : rpr ≠ ins)
    (hdisj : ∀ x ∈ rep, x ∉ rpr ∧ x ∉ ins) :
    ((App.buildRow loads i (App.analyze_car_damage call image)).map
        App.ReportRow.partsToReplace)
      = some (String.intercalate ", " rep)
    ∧ ∀ x ∈ rep, x ∉ rpr ∧ x ∉ ins := by
  refine ⟨?_, hdisj⟩
  have hcell : pyJoin ", " (jgetD p "replacement_parts" (.jarr []))
      = some (String.intercalate ", " rep) := by
    simp [jgetD, hrep, pyJoin, asStrings_map]
  simp only [App.buildRow, hd, hp, hr, hcell]
  rfl

/-- C8 witness: the fixture part_analysis answer, whose three lists are
["door"], ["bumper", "grille"] and ["frame"]. -/
theorem C8_witness :
    ((App.buildRow loadsTable 0 (App.analyze_car_damage callC7 "img")).map
        App.ReportRow.partsToReplace)
      = some (String.intercalate ", " ["bumper", "grille"])
    ∧ ∀ x ∈ ["bumper", "grille"], x ∉ ["door"] ∧ x ∉ ["frame"] :=
  C8_replacement_parts_cell loadsTable callC7 "img" 0
    [ ("location", .jstr "front bumper"), ("type", .jstr "dent")
    , ("severity", .jstr "Severe"), ("repair_complexity", .jstr "Complex") ]
    [ ("repair_parts", .jarr [.jstr "door"])
    , ("replacement_parts", .jarr [.jstr "bumper", .jstr "grille"])
    , ("inspection_areas", .jarr [.jstr "frame"]) ]
    [ ("repair_methods", .jstr "replace panel"), ("repair_time", .jstr "2 days")
    , ("specialized_requirements", .jbool true)
    , ("safety_considerations", .jstr "No critical issues") ]
    ["bumper", "grille"] ["door"] ["frame"]
    rfl rfl rfl rfl rfl rfl
    (by decide) (by decide) (by decide) (by decide) (by decide) (by decide)
    (by decide)

end CarDamage
